import Mathlib

/-
  Verification of the Minder alarm engine (Go sources: server.go, sensor.go,
  model.go, auth.go) against its natural-language specification.

  Shallow embedding conventions:
  * `map[int]bool` (the trigger-latch map `Server.triggered`) is modelled as a
    total function `Int → Bool`; a key absent from the Go map reads as `false`,
    which is exactly the Go zero-value semantics.
  * Go slices distinguish a nil slice from an empty one, and `handleArm` relies
    on that distinction (`var activeZones []int; ...; if activeZones == nil`).
    `ArmMode.activeZones` is therefore `Option (List Int)`: `none` is a nil
    slice (JSON key absent), `some l` a non-nil slice, possibly empty.
  * `strings.EqualFold` is modelled as equality of lowercased strings
    (ASCII case folding, which is what the configured names use).
  * The hardware read `readPin` (hal.go) is an oracle `Int → Bool` passed to
    the polling functions, so a tick can be run against any sensor levels.
  * Side effects that the engine performs (sensor reads, latch writes, event
    log lines, alert-handler invocations) are recorded as an `Event` trace
    returned next to the new state.  Each constructor corresponds to one
    call site in server.go / sensor.go.
  * An alert handler's `Send` (auth.go) either succeeds or returns an error
    string; `AlertChannel.sendResult` gives that outcome per zone.  `LogAlert`
    always succeeds; an email handler's outcome depends on the external SMTP
    world and is supplied as a parameter.
-/

namespace Minder

/-- A monitored zone (model.go `Zone`).  `mode` is the wiring mode string:
"NO", "NC", "EOL" (matched case-insensitively), anything else defaults to
normally-open semantics. -/
structure Zone where
  id : Int
  name : String
  type : String
  pin : Int
  enabled : Bool
  mode : String
deriving DecidableEq, Repr

/-- An arm profile (model.go `ArmMode`): a name plus the IDs of the zones
monitored while the profile is active.  `none` models a nil Go slice. -/
structure ArmMode where
  name : String
  activeZones : Option (List Int)
deriving DecidableEq, Repr

/-- Configuration of one alerting mechanism (model.go `AlertConfig`).
`acType` is the Go field `Type` ("log" or "email"); `fromAddr`/`toAddr`
are the Go fields `From`/`To`. -/
structure AlertConfig where
  acType : String
  smtpServer : String
  smtpPort : Int
  username : String
  password : String
  fromAddr : String
  toAddr : String
  subject : String
deriving DecidableEq, Repr

/-- The engine-relevant part of the persisted configuration (model.go
`Config`).  HTTP/TLS/user fields are plumbing outside the alarm engine and
are omitted. -/
structure Config where
  zones : List Zone
  armModes : List ArmMode
  alerts : List AlertConfig

/-- The engine's mutable state (server.go `Server`): `currentMode` is the
display name of the active mode ("Disarmed" if none), `testMode` is
0 = normal, 1 = TestSoft, 2 = TestWiring, and `triggered` is the
per-zone latch map. -/
structure ServerState where
  currentMode : String
  testMode : Nat
  triggered : Int → Bool

/-- The spec's Operating State vocabulary: `{Disarmed, Armed(profile),
TestSoft, TestWiring}`. -/
inductive OpState where
  | disarmed : OpState
  | armed (profile : String) : OpState
  | testSoft : OpState
  | testWiring : OpState
deriving DecidableEq, Repr

/-- How a concrete server state denotes the spec's Operating State: the
test-mode flag is authoritative for the two test states (the code branches
on `testMode`), otherwise the mode string distinguishes Disarmed from
Armed. -/
def ServerState.opState (s : ServerState) : OpState :=
  if s.testMode = 1 then OpState.testSoft
  else if s.testMode = 2 then OpState.testWiring
  else if s.currentMode = "Disarmed" then OpState.disarmed
  else OpState.armed s.currentMode

/-- The code keeps `currentMode` and `testMode` in sync: whenever a test mode
is active, `currentMode` holds the corresponding display string (both are
written together in handleArm).  Every state reachable from the initial
state satisfies this. -/
def WF (s : ServerState) : Prop :=
  (s.testMode = 0 ∨ s.testMode = 1 ∨ s.testMode = 2) ∧
  (s.testMode = 1 → s.currentMode = "TestSoft") ∧
  (s.testMode = 2 → s.currentMode = "TestWiring")

/-- Observable actions of the engine, one constructor per call site:
`readZone` = the `readPin(z.Pin)` inside `zoneTriggered` (sensor.go),
tagged with the zone being interpreted; `latch` = `s.triggered[zone.ID] =
true`; `logTrigger` / `logTestTrigger` / `logArm` / `logDisarm` = the
corresponding `s.logger.Log` lines; `send` = an `h.Send(zone)` invocation;
`logSendError` = the "alert handler %s error" log line. -/
inductive Event where
  | readZone (zoneID : Int) (pin : Int) : Event
  | latch (zoneID : Int) : Event
  | logTrigger (zoneID : Int) (name : String) : Event
  | logTestTrigger (zoneID : Int) (name : String) (user : String) : Event
  | logArm (mode : String) (user : String) : Event
  | logDisarm (user : String) : Event
  | send (channel : String) (zoneID : Int) : Event
  | logSendError (channel : String) (err : String) : Event
deriving DecidableEq, Repr

/-- ASCII lower-casing of one character (model of Go's case folding for the
ASCII names this system uses). -/
def lowerChar (c : Char) : Char :=
  if 'A' ≤ c ∧ c ≤ 'Z' then Char.ofNat (c.toNat + 32) else c

/-- ASCII upper-casing of one character. -/
def upperChar (c : Char) : Char :=
  if 'a' ≤ c ∧ c ≤ 'z' then Char.ofNat (c.toNat - 32) else c

/-- Model of `strings.ToLower` on the ASCII names this system uses. -/
def lowerStr (s : String) : String :=
  ⟨s.data.map lowerChar⟩

/-- Model of `strings.ToUpper` on the ASCII mode strings this system uses. -/
def upperStr (s : String) : String :=
  ⟨s.data.map upperChar⟩

/-- The ASCII whitespace characters `strings.TrimSpace` removes. -/
def isSpaceChar (c : Char) : Bool :=
  c = ' ' ∨ c = '\t' ∨ c = '\n' ∨ c = '\r'

/-- Model of `strings.TrimSpace`: drop whitespace from both ends. -/
def trimStr (s : String) : String :=
  ⟨((s.data.dropWhile isSpaceChar).reverse.dropWhile isSpaceChar).reverse⟩

/-- Model of `strings.EqualFold` for the ASCII names used here. -/
def equalFold (a b : String) : Bool :=
  lowerStr a == lowerStr b

/-- An alert channel as the engine sees it through the `AlertHandler`
interface (auth.go): a name and the outcome its `Send` produces for a given
zone (`none` = nil error, `some e` = failure with message `e`). -/
structure AlertChannel where
  name : String
  sendResult : Zone → Option String

/-- auth.go `LogAlert`: writes to the event log and always returns nil. -/
def LogAlert : AlertChannel :=
  { name := "log", sendResult := fun _ => none }

/-- auth.go `EmailAlert`: its `Send` calls `smtp.SendMail`; the outcome is
determined by the external SMTP world, supplied here as `outcome`. -/
def EmailAlert (outcome : Zone → Option String) : AlertChannel :=
  { name := "email", sendResult := outcome }

/-- server.go `initAlertHandlers`: build the handler list from configuration;
unknown types are skipped; an empty input list or an all-unknown list yields
the single default `LogAlert`. -/
def initAlertHandlers (alerts : List AlertConfig)
    (emailOutcome : AlertConfig → Zone → Option String) : List AlertChannel :=
  if alerts.isEmpty then [LogAlert]
  else
    let handlers := alerts.filterMap fun ac =>
      if lowerStr ac.acType = "log" then some LogAlert
      else if lowerStr ac.acType = "email" then some (EmailAlert (emailOutcome ac))
      else none
    if handlers.isEmpty then [LogAlert] else handlers

/-- sensor.go `zoneTriggered`: interpret the raw pin level according to the
zone's wiring mode.  NC: low means triggered; NO and EOL: high means
triggered; any other mode defaults to NO semantics. -/
def zoneTriggered (readPin : Int → Bool) (z : Zone) : Bool :=
  let state := readPin z.pin
  if upperStr z.mode = "NC" then !state
  else if upperStr z.mode = "NO" then state
  else if upperStr z.mode = "EOL" then state
  else state

/-- The zone-lookup loop used by handleTestTrigger and pollSensors: first
configured zone with the requested ID, if any. -/
def findZone : List Zone → Int → Option Zone
  | [], _ => none
  | z :: rest, id => if z.id = id then some z else findZone rest id

/-- The profile-lookup loop in handleArm / pollSensors: take the first
profile whose name matches case-insensitively and return its (possibly nil)
zone list; `none` when no profile matches or the matching profile's slice
is nil. -/
def findActiveZones : List ArmMode → String → Option (List Int)
  | [], _ => none
  | am :: rest, mode =>
    if equalFold am.name mode then am.activeZones else findActiveZones rest mode

/-- Result of the arm entry point: HTTP 204 vs the 400 "unknown arm mode". -/
inductive ArmResult where
  | ok : ArmResult
  | unknownArmMode : ArmResult
deriving DecidableEq, Repr

/-- Result of the manual-trigger entry point: 204, the 400 "not in TestSoft
mode", or the 404 "zone not found". -/
inductive TriggerResult where
  | ok : TriggerResult
  | notInTestSoft : TriggerResult
  | zoneNotFound : TriggerResult
deriving DecidableEq, Repr

/-- server.go `handleArm`: trim the requested mode; the spellings
"testsoft"/"test soft" and "testwiring"/"test wiring" (lowercased) switch to
the test states unconditionally; otherwise the first case-insensitively
matching profile is looked up and a nil result rejects the request.  Every
successful branch installs a fresh empty latch map. -/
def handleArm (cfg : Config) (s : ServerState) (reqMode : String)
    (user : String) : ArmResult × ServerState × List Event :=
  let mode := trimStr reqMode
  let lower := lowerStr mode
  if lower = "testsoft" ∨ lower = "test soft" then
    (ArmResult.ok,
     { currentMode := "TestSoft", testMode := 1, triggered := fun _ => false },
     [Event.logArm "TestSoft" user])
  else if lower = "testwiring" ∨ lower = "test wiring" then
    (ArmResult.ok,
     { currentMode := "TestWiring", testMode := 2, triggered := fun _ => false },
     [Event.logArm "TestWiring" user])
  else
    match findActiveZones cfg.armModes mode with
    | none => (ArmResult.unknownArmMode, s, [])
    | some _ =>
      (ArmResult.ok,
       { currentMode := mode, testMode := 0, triggered := fun _ => false },
       [Event.logArm mode user])

/-- server.go `handleDisarm`: unconditionally move to Disarmed and reset the
latch map. -/
def handleDisarm (_s : ServerState) (user : String) :
    ServerState × List Event :=
  ({ currentMode := "Disarmed", testMode := 0, triggered := fun _ => false },
   [Event.logDisarm user])

/-- One alert fan-out (the `for _, h := range s.alerts` loops in
handleTestTrigger and pollSensors): invoke every handler in order; a failing
`Send` adds a diagnostic log line and the loop continues. -/
def dispatchAlerts : List AlertChannel → Zone → List Event
  | [], _ => []
  | h :: rest, z =>
    Event.send h.name z.id ::
      ((match h.sendResult z with
        | some err => [Event.logSendError h.name err]
        | none => []) ++ dispatchAlerts rest z)

/-- server.go `handleTestTrigger`: reject unless testMode = 1; look the zone
up by ID (Enabled is not consulted); a zone whose latch is already set is a
silent no-op; otherwise set the latch, log, and invoke every alert handler
(even in TestSoft). -/
def handleTestTrigger (cfg : Config) (alerts : List AlertChannel)
    (s : ServerState) (zoneID : Int) (user : String) :
    TriggerResult × ServerState × List Event :=
  if s.testMode ≠ 1 then (TriggerResult.notInTestSoft, s, [])
  else
    match findZone cfg.zones zoneID with
    | none => (TriggerResult.zoneNotFound, s, [])
    | some zone =>
      if s.triggered zone.id then (TriggerResult.ok, s, [])
      else
        (TriggerResult.ok,
         { s with triggered := fun j => if j = zone.id then true else s.triggered j },
         Event.latch zone.id :: Event.logTestTrigger zone.id zone.name user ::
           dispatchAlerts alerts zone)

/-- The active zone IDs one poll tick considers (pollSensors): every
configured zone in TestWiring (testMode = 2), otherwise the current
profile's list (a missing profile or a nil slice polls nothing). -/
def activeZoneIDs (cfg : Config) (s : ServerState) : List Int :=
  if s.testMode = 2 then cfg.zones.map Zone.id
  else (findActiveZones cfg.armModes s.currentMode).getD []

/-- The inner per-zone loop of one poll tick (pollSensors): look each active
ID up in the zone list; skip unknown or disabled zones without touching the
sensor; otherwise read and interpret the sensor, and on a fresh activation
set the latch, log, and (only when testMode = 0) fan out to the alert
handlers. -/
def pollZones (cfg : Config) (alerts : List AlertChannel)
    (readPin : Int → Bool) (testMode : Nat) :
    List Int → (Int → Bool) → (Int → Bool) × List Event
  | [], trig => (trig, [])
  | id :: rest, trig =>
    match findZone cfg.zones id with
    | none => pollZones cfg alerts readPin testMode rest trig
    | some zone =>
      if zone.enabled then
        if zoneTriggered readPin zone then
          if trig zone.id then
            let r := pollZones cfg alerts readPin testMode rest trig
            (r.1, Event.readZone zone.id zone.pin :: r.2)
          else
            let trig2 := fun j => if j = zone.id then true else trig j
            let r := pollZones cfg alerts readPin testMode rest trig2
            (r.1, Event.readZone zone.id zone.pin :: Event.latch zone.id ::
                  Event.logTrigger zone.id zone.name ::
                  ((if testMode = 0 then dispatchAlerts alerts zone else []) ++ r.2))
        else
          let r := pollZones cfg alerts readPin testMode rest trig
          (r.1, Event.readZone zone.id zone.pin :: r.2)
      else
        pollZones cfg alerts readPin testMode rest trig

/-- One iteration of the pollSensors loop: skip entirely when disarmed or in
TestSoft; otherwise run the per-zone loop over the active IDs and commit the
updated latch map. -/
def pollTick (cfg : Config) (alerts : List AlertChannel)
    (readPin : Int → Bool) (s : ServerState) : ServerState × List Event :=
  if s.currentMode = "Disarmed" ∨ s.testMode = 1 then (s, [])
  else
    let r := pollZones cfg alerts readPin s.testMode (activeZoneIDs cfg s) s.triggered
    ({ s with triggered := r.1 }, r.2)

/-- An engine step with no intervening arm/disarm transition: either a poll
tick against some sensor levels, or a manual test trigger. -/
inductive Op where
  | tick (readPin : Int → Bool) : Op
  | trigger (zoneID : Int) (user : String) : Op

/-- Run one step. -/
def runOp (cfg : Config) (alerts : List AlertChannel) (s : ServerState) :
    Op → ServerState × List Event
  | Op.tick readPin => pollTick cfg alerts readPin s
  | Op.trigger zoneID user =>
    let r := handleTestTrigger cfg alerts s zoneID user
    (r.2.1, r.2.2)

/-- Run a sequence of steps, concatenating the event traces. -/
def runOps (cfg : Config) (alerts : List AlertChannel) :
    List Op → ServerState → ServerState × List Event
  | [], s => (s, [])
  | op :: rest, s =>
    let r1 := runOp cfg alerts s op
    let r2 := runOps cfg alerts rest r1.1
    (r2.1, r1.2 ++ r2.2)

/-- The channel invocations recorded in a trace, in order. -/
def sentTo (evs : List Event) : List (String × Int) :=
  evs.filterMap fun e =>
    match e with
    | Event.send ch i => some (ch, i)
    | _ => none

/-! ### Basic lemmas about the lookup loops and the state abstraction -/

theorem findZone_id (zs : List Zone) (id : Int) (z : Zone)
    (h : findZone zs id = some z) : z.id = id := by
  induction zs with
  | nil => simp [findZone] at h
  | cons z0 rest ih =>
    by_cases h0 : z0.id = id
    · simp only [findZone] at h
      rw [if_pos h0] at h
      cases h
      exact h0
    · simp only [findZone] at h
      rw [if_neg h0] at h
      exact ih h

theorem findActiveZones_eq_find (ams : List ArmMode) (m : String) :
    findActiveZones ams m =
      (ams.find? fun am => equalFold am.name m).bind ArmMode.activeZones := by
  induction ams with
  | nil => rfl
  | cons am rest ih =>
    cases h : equalFold am.name m with
    | true => simp [findActiveZones, List.find?_cons, h]
    | false => simp [findActiveZones, List.find?_cons, h, ih]

theorem opState_testSoft_iff (s : ServerState) :
    s.opState = OpState.testSoft ↔ s.testMode = 1 := by
  unfold ServerState.opState
  split_ifs with h1 h2 h3 <;> simp_all

theorem opState_disarmed_mode (s : ServerState) (h : s.opState = OpState.disarmed) :
    s.currentMode = "Disarmed" := by
  unfold ServerState.opState at h
  split_ifs at h with h1 h2 h3
  simp_all

theorem opState_testWiring_dest (s : ServerState)
    (h : s.opState = OpState.testWiring) : s.testMode = 2 ∧ s.testMode ≠ 1 := by
  unfold ServerState.opState at h
  split_ifs at h with h1 h2 h3
  simp_all

theorem opState_armed_dest (s : ServerState) (p : String)
    (h : s.opState = OpState.armed p) :
    s.testMode ≠ 1 ∧ s.testMode ≠ 2 ∧ s.currentMode = p ∧
      s.currentMode ≠ "Disarmed" := by
  unfold ServerState.opState at h
  split_ifs at h with h1 h2 h3
  exact ⟨h1, h2, OpState.armed.inj h, h3⟩

/-! ### Claim C8: the zone trigger interpreter -/

/-- The wiring modes named by the spec. -/
inductive WiringMode where
  | normallyClosed : WiringMode
  | normallyOpen : WiringMode
  | endOfLine : WiringMode
  | unknownMode : WiringMode
deriving DecidableEq, Repr

/-- Which wiring mode a zone mode string denotes (matched on the uppercased
string exactly as the code does; anything unrecognised is the unknown
mode). -/
def parseWiringMode (m : String) : WiringMode :=
  if upperStr m = "NC" then WiringMode.normallyClosed
  else if upperStr m = "NO" then WiringMode.normallyOpen
  else if upperStr m = "EOL" then WiringMode.endOfLine
  else WiringMode.unknownMode

/-- The reference activation table from the spec: NC+low true, NC+high
false, NO+high true, NO+low false, EOL+high true, EOL+low false, and an
unknown mode behaves as NO. -/
def activatedTable : Bool → WiringMode → Bool
  | rawLevel, WiringMode.normallyClosed => !rawLevel
  | rawLevel, WiringMode.normallyOpen => rawLevel
  | rawLevel, WiringMode.endOfLine => rawLevel
  | rawLevel, WiringMode.unknownMode => rawLevel

/-- Claim C8: for every raw sensor level and wiring mode, the zone trigger
interpreter is a pure function whose result equals the reference table:
NormallyClosed is activated exactly when the level is low, NormallyOpen and
EndOfLine exactly when the level is high, and any unrecognised or empty
wiring mode behaves as NormallyOpen. -/
theorem C8_interpreter_table (readPin readPin2 : Int → Bool) (z z2 : Zone) :
    zoneTriggered readPin z =
      activatedTable (readPin z.pin) (parseWiringMode z.mode) ∧
    (readPin z.pin = readPin2 z2.pin → z.mode = z2.mode →
      zoneTriggered readPin z = zoneTriggered readPin2 z2) := by
  constructor
  · simp only [zoneTriggered, parseWiringMode]
    split_ifs <;> rfl
  · intro hlvl hmode
    simp only [zoneTriggered]
    rw [hlvl, hmode]

/-- First witness zone: a normally-closed contact. -/
def zoneW1 : Zone := ⟨1, "Front Door", "contact", 17, true, "NC"⟩

/-- Second witness zone: same wiring mode on another pin. -/
def zoneW2 : Zone := ⟨2, "Back Door", "contact", 4, true, "NC"⟩

/-- Witness for C8 at two concrete zones with equal level and mode. -/
theorem C8_interpreter_table_witness :
    zoneTriggered (fun _ => false) zoneW1 = zoneTriggered (fun _ => false) zoneW2 :=
  (C8_interpreter_table (fun _ => false) (fun _ => false) zoneW1 zoneW2).2 rfl rfl

/-! ### Claim C5: transitions clear the latch set; disarm always succeeds -/

/-- Claim C5: the latch set is empty immediately after any successful arm
call (to a profile or a test mode) and after any disarm call returns;
disarm always succeeds and moves the operating state to Disarmed. -/
theorem C5_latch_cleared (cfg : Config) (s : ServerState) (mode user : String) :
    ((handleArm cfg s mode user).1 = ArmResult.ok →
      ∀ id, (handleArm cfg s mode user).2.1.triggered id = false) ∧
    (∀ id, (handleDisarm s user).1.triggered id = false) ∧
    (handleDisarm s user).1.currentMode = "Disarmed" ∧
    (handleDisarm s user).1.opState = OpState.disarmed := by
  refine ⟨?_, fun _ => rfl, rfl, rfl⟩
  intro h id
  simp only [handleArm] at h ⊢
  split_ifs at h ⊢
  · rfl
  · rfl
  · cases hfz : findActiveZones cfg.armModes (trimStr mode) with
    | none => rw [hfz] at h; simp at h
    | some l => rfl

/-- The default profiles shipped by config.go (with non-nil empty lists). -/
def cfgDefaults : Config :=
  ⟨[], [⟨"Away", some []⟩, ⟨"Home", some []⟩], []⟩

/-- An armed state with the latch of zone 1 set. -/
def stateLatched : ServerState := ⟨"Away", 0, fun j => j == 1⟩

/-- Witness for C5: re-arming to "Home" clears the latch of zone 1. -/
theorem C5_latch_cleared_witness :
    (handleArm cfgDefaults stateLatched "Home" "u").2.1.triggered 1 = false :=
  (C5_latch_cleared cfgDefaults stateLatched "Home" "u").1 (by decide) 1

/-! ### Claim C6: the built-in test mode spellings -/

/-- Spec-side string normalisation used by claim C6: remove the spaces. -/
def stripSpaces (s : String) : String :=
  ⟨s.data.filter fun c => c ≠ ' '⟩

/-- Spelling equivalence claimed by C6: equal case-insensitively after
removing spaces. -/
def spaceCaseEquiv (a b : String) : Bool :=
  stripSpaces (lowerStr a) == stripSpaces (lowerStr b)

/-- A configuration with no zones, profiles or alert channels. -/
def cfgNoProfiles : Config := ⟨[], [], []⟩

/-- The initial server state built by NewServer. -/
def initialState : ServerState := ⟨"Disarmed", 0, fun _ => false⟩

/-- Counterexample to claim C6 as stated: the spelling "Tes tSoft" matches
"TestSoft" under case- and space-insensitive matching, yet arm rejects it
with UnknownProfile instead of entering the TestSoft state. -/
theorem C6_counterexample :
    spaceCaseEquiv "Tes tSoft" "TestSoft" = true ∧
    (handleArm cfgNoProfiles initialState "Tes tSoft" "u").1 =
      ArmResult.unknownArmMode := by
  decide

/-- Claim C6 (amended): arm moves to TestSoft / TestWiring unconditionally,
regardless of which profiles are configured, exactly for request names whose
trimmed, lowercased spelling is "testsoft" or "test soft" (respectively
"testwiring" or "test wiring"); that is, case-insensitive matching with at
most one single space between the two words. -/
theorem C6_amended_testmodes (cfg : Config) (s : ServerState) (mode user : String) :
    ((lowerStr (trimStr mode) = "testsoft" ∨ lowerStr (trimStr mode) = "test soft") →
      handleArm cfg s mode user =
        (ArmResult.ok,
         { currentMode := "TestSoft", testMode := 1, triggered := fun _ => false },
         [Event.logArm "TestSoft" user])) ∧
    ((lowerStr (trimStr mode) = "testwiring" ∨ lowerStr (trimStr mode) = "test wiring") →
      handleArm cfg s mode user =
        (ArmResult.ok,
         { currentMode := "TestWiring", testMode := 2, triggered := fun _ => false },
         [Event.logArm "TestWiring" user])) := by
  constructor
  · intro h
    simp only [handleArm]
    rw [if_pos h]
  · intro h
    have hns : ¬(lowerStr (trimStr mode) = "testsoft" ∨
        lowerStr (trimStr mode) = "test soft") := by
      intro hc
      rcases h with h | h <;> rcases hc with hc | hc <;> rw [h] at hc <;>
        exact absurd hc (by decide)
    simp only [handleArm]
    rw [if_neg hns, if_pos h]

/-- Witness for the amended C6 at the concrete spelling " test SOFT ". -/
theorem C6_amended_testmodes_witness :
    handleArm cfgNoProfiles initialState " test SOFT " "u" =
      (ArmResult.ok,
       { currentMode := "TestSoft", testMode := 1, triggered := fun _ => false },
       [Event.logArm "TestSoft" "u"]) :=
  (C6_amended_testmodes cfgNoProfiles initialState " test SOFT " "u").1
    (Or.inr (by decide))

/-! ### Claim C3: arming a named profile -/

/-- A profile whose active-zone list is a nil slice (JSON field absent). -/
def profileNilZones : ArmMode := ⟨"Night", none⟩

/-- A configuration containing only that profile. -/
def cfgNilProfile : Config := ⟨[], [profileNilZones], []⟩

/-- Counterexample to claim C3 as stated: the profile "Night" is configured
and matches the requested name case-insensitively, yet arm fails with
UnknownProfile, because the profile carries a nil active-zone slice and the
code tests the looked-up slice against nil. -/
theorem C3_counterexample :
    profileNilZones ∈ cfgNilProfile.armModes ∧
    equalFold profileNilZones.name (trimStr "Night") = true ∧
    (handleArm cfgNilProfile initialState "Night" "u").1 =
      ArmResult.unknownArmMode := by
  decide

theorem handleArm_nonTest (cfg : Config) (s : ServerState) (reqMode user : String)
    (h1 : ¬(lowerStr (trimStr reqMode) = "testsoft" ∨
      lowerStr (trimStr reqMode) = "test soft"))
    (h2 : ¬(lowerStr (trimStr reqMode) = "testwiring" ∨
      lowerStr (trimStr reqMode) = "test wiring")) :
    handleArm cfg s reqMode user =
      match findActiveZones cfg.armModes (trimStr reqMode) with
      | none => (ArmResult.unknownArmMode, s, [])
      | some _ =>
        (ArmResult.ok,
         { currentMode := trimStr reqMode, testMode := 0, triggered := fun _ => false },
         [Event.logArm (trimStr reqMode) user]) := by
  simp only [handleArm]
  rw [if_neg h1, if_neg h2]

/-- Claim C3 (amended): for a requested name that is not a built-in
test-mode spelling, arm fails with UnknownProfile exactly when no configured
profile matches the trimmed name case-insensitively or when the first
matching profile carries a nil active-zone slice; a failing call mutates
neither the operating state nor the latch set, and a successful call moves
to the requested profile name with testMode 0 and an empty latch set. -/
theorem C3_amended_arm (cfg : Config) (s : ServerState) (reqMode user : String)
    (h : lowerStr (trimStr reqMode) ∉
      (["testsoft", "test soft", "testwiring", "test wiring"] : List String)) :
    ((handleArm cfg s reqMode user).1 = ArmResult.unknownArmMode ↔
      (cfg.armModes.find? fun am => equalFold am.name (trimStr reqMode)).bind
          ArmMode.activeZones = none) ∧
    ((handleArm cfg s reqMode user).1 = ArmResult.unknownArmMode →
      handleArm cfg s reqMode user = (ArmResult.unknownArmMode, s, [])) ∧
    ((handleArm cfg s reqMode user).1 = ArmResult.ok →
      (handleArm cfg s reqMode user).2.1.currentMode = trimStr reqMode ∧
      (handleArm cfg s reqMode user).2.1.testMode = 0 ∧
      ∀ id, (handleArm cfg s reqMode user).2.1.triggered id = false) := by
  have h1 : ¬(lowerStr (trimStr reqMode) = "testsoft" ∨
      lowerStr (trimStr reqMode) = "test soft") := by
    intro hc
    apply h
    rcases hc with hc | hc <;> rw [hc] <;> decide
  have h2 : ¬(lowerStr (trimStr reqMode) = "testwiring" ∨
      lowerStr (trimStr reqMode) = "test wiring") := by
    intro hc
    apply h
    rcases hc with hc | hc <;> rw [hc] <;> decide
  rw [handleArm_nonTest cfg s reqMode user h1 h2, ← findActiveZones_eq_find]
  cases hfz : findActiveZones cfg.armModes (trimStr reqMode) with
  | none => simp
  | some l => simp

/-- Witness for the amended C3: arming the configured default profile "Away"
succeeds and installs the requested name with testMode 0. -/
theorem C3_amended_arm_witness :
    (handleArm cfgDefaults initialState "Away" "u").2.1.currentMode = trimStr "Away" ∧
    (handleArm cfgDefaults initialState "Away" "u").2.1.testMode = 0 :=
  ⟨((C3_amended_arm cfgDefaults initialState "Away" "u" (by decide)).2.2
      (by decide)).1,
   ((C3_amended_arm cfgDefaults initialState "Away" "u" (by decide)).2.2
      (by decide)).2.1⟩

/-! ### Lemmas about alert dispatch -/

theorem sentTo_dispatchAlerts (alerts : List AlertChannel) (z : Zone) :
    sentTo (dispatchAlerts alerts z) = alerts.map fun h => (h.name, z.id) := by
  induction alerts with
  | nil => rfl
  | cons h rest ih =>
    simp only [sentTo] at ih
    cases hr : h.sendResult z with
    | none =>
      simp [dispatchAlerts, sentTo, hr, List.filterMap_cons, List.filterMap_append, ih]
    | some err =>
      simp [dispatchAlerts, sentTo, hr, List.filterMap_cons, List.filterMap_append, ih]

theorem dispatchAlerts_shape (alerts : List AlertChannel) (z : Zone) (e : Event)
    (he : e ∈ dispatchAlerts alerts z) :
    (∃ ch, e = Event.send ch z.id) ∨ ∃ ch err, e = Event.logSendError ch err := by
  induction alerts with
  | nil => simp [dispatchAlerts] at he
  | cons h rest ih =>
    cases hr : h.sendResult z with
    | none =>
      simp only [dispatchAlerts] at he
      rw [hr] at he
      simp only [List.nil_append, List.mem_cons] at he
      rcases he with rfl | he
      · exact Or.inl ⟨h.name, rfl⟩
      · exact ih he
    | some err =>
      simp only [dispatchAlerts] at he
      rw [hr] at he
      simp only [List.cons_append, List.nil_append, List.mem_cons] at he
      rcases he with rfl | rfl | he
      · exact Or.inl ⟨h.name, rfl⟩
      · exact Or.inr ⟨h.name, err, rfl⟩
      · exact ih he

theorem dispatchAlerts_records_failure (alerts : List AlertChannel) (z : Zone)
    (h : AlertChannel) (hmem : h ∈ alerts) (err : String)
    (herr : h.sendResult z = some err) :
    Event.logSendError h.name err ∈ dispatchAlerts alerts z := by
  induction alerts with
  | nil => cases hmem
  | cons h0 rest ih =>
    rcases List.mem_cons.mp hmem with rfl | hmem2
    · simp [dispatchAlerts, herr]
    · cases hr : h0.sendResult z <;> simp [dispatchAlerts, hr, ih hmem2]

theorem dispatchAlerts_send_mem (alerts : List AlertChannel) (z : Zone)
    (ch : AlertChannel) (hmem : ch ∈ alerts) :
    Event.send ch.name z.id ∈ dispatchAlerts alerts z := by
  induction alerts with
  | nil => cases hmem
  | cons h0 rest ih =>
    rcases List.mem_cons.mp hmem with rfl | hmem2
    · simp [dispatchAlerts]
    · cases hr : h0.sendResult z <;> simp [dispatchAlerts, hr, ih hmem2]

/-! ### Claim C4: the manual test trigger -/

/-- Claim C4: triggerManually fails with NotInTestSoftMode whenever the
operating state is anything other than TestSoft, fails with UnknownZone when
the state is TestSoft but no configured zone has the requested ID (mutating
no state in either failure case), is a silent no-op when the zone latch is
already set, and otherwise sets the latch and invokes the configured alert
channels (channels are invoked in TestSoft). -/
theorem C4_manual_trigger (cfg : Config) (alerts : List AlertChannel)
    (s : ServerState) (zoneID : Int) (user : String) :
    (s.opState ≠ OpState.testSoft →
      handleTestTrigger cfg alerts s zoneID user =
        (TriggerResult.notInTestSoft, s, [])) ∧
    (s.opState = OpState.testSoft → findZone cfg.zones zoneID = none →
      handleTestTrigger cfg alerts s zoneID user =
        (TriggerResult.zoneNotFound, s, [])) ∧
    (∀ z, s.opState = OpState.testSoft → findZone cfg.zones zoneID = some z →
      s.triggered zoneID = true →
      handleTestTrigger cfg alerts s zoneID user = (TriggerResult.ok, s, [])) ∧
    (∀ z, s.opState = OpState.testSoft → findZone cfg.zones zoneID = some z →
      s.triggered zoneID = false →
      (handleTestTrigger cfg alerts s zoneID user).1 = TriggerResult.ok ∧
      (handleTestTrigger cfg alerts s zoneID user).2.1.triggered zoneID = true ∧
      (handleTestTrigger cfg alerts s zoneID user).2.1.currentMode = s.currentMode ∧
      (handleTestTrigger cfg alerts s zoneID user).2.1.testMode = s.testMode ∧
      sentTo (handleTestTrigger cfg alerts s zoneID user).2.2 =
        alerts.map fun h => (h.name, zoneID)) := by
  refine ⟨?_, ?_, ?_, ?_⟩
  · intro hop
    have ht : s.testMode ≠ 1 := fun hc => hop ((opState_testSoft_iff s).mpr hc)
    simp [handleTestTrigger, ht]
  · intro hop hfz
    have ht : s.testMode = 1 := (opState_testSoft_iff s).mp hop
    simp [handleTestTrigger, ht, hfz]
  · intro z hop hfz htr
    have ht : s.testMode = 1 := (opState_testSoft_iff s).mp hop
    have hid : z.id = zoneID := findZone_id cfg.zones zoneID z hfz
    simp [handleTestTrigger, ht, hfz, hid, htr]
  · intro z hop hfz htr
    have ht : s.testMode = 1 := (opState_testSoft_iff s).mp hop
    have hid : z.id = zoneID := findZone_id cfg.zones zoneID z hfz
    simp only [handleTestTrigger, ht, hfz, hid, htr]
    have hs := sentTo_dispatchAlerts alerts z
    rw [hid] at hs
    refine ⟨by simp, by simp, by simp, by simp, ?_⟩
    simpa [sentTo] using hs

/-- A single enabled normally-open zone with ID 1. -/
def zoneDoor : Zone := ⟨1, "Door", "contact", 17, true, "NO"⟩

/-- A configuration holding only that zone. -/
def cfgOneZone : Config := ⟨[zoneDoor], [], []⟩

/-- The TestSoft state with no latches set. -/
def stateTestSoft : ServerState := ⟨"TestSoft", 1, fun _ => false⟩

/-- Witness for C4: a fresh manual trigger of zone 1 in TestSoft succeeds
and sets the latch. -/
theorem C4_manual_trigger_witness :
    (handleTestTrigger cfgOneZone [LogAlert] stateTestSoft 1 "u").1 =
      TriggerResult.ok ∧
    (handleTestTrigger cfgOneZone [LogAlert] stateTestSoft 1 "u").2.1.triggered 1 =
      true :=
  ⟨((C4_manual_trigger cfgOneZone [LogAlert] stateTestSoft 1 "u").2.2.2 zoneDoor
      (by decide) (by decide) (by decide)).1,
   ((C4_manual_trigger cfgOneZone [LogAlert] stateTestSoft 1 "u").2.2.2 zoneDoor
      (by decide) (by decide) (by decide)).2.1⟩

/-! ### Claim C7: alert dispatch and failure isolation -/

/-- Claim C7: every configured alert channel is invoked in configuration
order for a freshly latched zone; a failure returned by one channel is
recorded as a diagnostic event, prevents neither the remaining channels nor
the latch, and is never propagated to the caller; an empty alert
configuration yields the single default log channel. -/
theorem C7_dispatch_isolated (alerts : List AlertChannel) (z : Zone)
    (cfg : Config) (s : ServerState) (zoneID : Int) (user : String)
    (emailOutcome : AlertConfig → Zone → Option String) :
    sentTo (dispatchAlerts alerts z) = (alerts.map fun h => (h.name, z.id)) ∧
    (∀ h ∈ alerts, ∀ err, h.sendResult z = some err →
      Event.logSendError h.name err ∈ dispatchAlerts alerts z) ∧
    (∀ z2, s.testMode = 1 → findZone cfg.zones zoneID = some z2 →
      s.triggered zoneID = false →
      (handleTestTrigger cfg alerts s zoneID user).1 = TriggerResult.ok ∧
      (handleTestTrigger cfg alerts s zoneID user).2.1.triggered zoneID = true) ∧
    initAlertHandlers [] emailOutcome = [LogAlert] := by
  refine ⟨sentTo_dispatchAlerts alerts z, ?_, ?_, rfl⟩
  · intro h hmem err herr
    exact dispatchAlerts_records_failure alerts z h hmem err herr
  · intro z2 ht hfz htr
    have hid : z2.id = zoneID := findZone_id cfg.zones zoneID z2 hfz
    simp only [handleTestTrigger, ht, hfz]
    simp only [hid, htr]
    exact ⟨by simp, by simp⟩

/-- An alert channel whose send always fails. -/
def failingChannel : AlertChannel :=
  { name := "email", sendResult := fun _ => some "smtp unreachable" }

/-- Witness for C7: with a failing first channel and the log channel second,
the manual trigger still succeeds, the latch is set, and both channels are
invoked in order. -/
theorem C7_dispatch_isolated_witness :
    (handleTestTrigger cfgOneZone [failingChannel, LogAlert] stateTestSoft 1 "u").1 =
      TriggerResult.ok ∧
    (handleTestTrigger cfgOneZone [failingChannel, LogAlert]
        stateTestSoft 1 "u").2.1.triggered 1 = true :=
  (C7_dispatch_isolated [failingChannel, LogAlert] zoneDoor cfgOneZone
    stateTestSoft 1 "u" (fun _ _ => none)).2.2.1 zoneDoor rfl (by decide) (by decide)

/-! ### Lemmas about the polling loop -/

theorem pollZones_cons_none (cfg : Config) (alerts : List AlertChannel)
    (readPin : Int → Bool) (tm : Nat) (id : Int) (rest : List Int)
    (trig : Int → Bool) (hfz : findZone cfg.zones id = none) :
    pollZones cfg alerts readPin tm (id :: rest) trig =
      pollZones cfg alerts readPin tm rest trig := by
  simp [pollZones, hfz]

theorem pollZones_cons_disabled (cfg : Config) (alerts : List AlertChannel)
    (readPin : Int → Bool) (tm : Nat) (id : Int) (rest : List Int)
    (trig : Int → Bool) (zone : Zone) (hfz : findZone cfg.zones id = some zone)
    (hen : zone.enabled = false) :
    pollZones cfg alerts readPin tm (id :: rest) trig =
      pollZones cfg alerts readPin tm rest trig := by
  simp [pollZones, hfz, hen]

theorem pollZones_cons_quiet (cfg : Config) (alerts : List AlertChannel)
    (readPin : Int → Bool) (tm : Nat) (id : Int) (rest : List Int)
    (trig : Int → Bool) (zone : Zone) (hfz : findZone cfg.zones id = some zone)
    (hen : zone.enabled = true) (hq : zoneTriggered readPin zone = false) :
    pollZones cfg alerts readPin tm (id :: rest) trig =
      ((pollZones cfg alerts readPin tm rest trig).1,
       Event.readZone zone.id zone.pin ::
         (pollZones cfg alerts readPin tm rest trig).2) := by
  simp [pollZones, hfz, hen, hq]

theorem pollZones_cons_already (cfg : Config) (alerts : List AlertChannel)
    (readPin : Int → Bool) (tm : Nat) (id : Int) (rest : List Int)
    (trig : Int → Bool) (zone : Zone) (hfz : findZone cfg.zones id = some zone)
    (hen : zone.enabled = true) (ha : zoneTriggered readPin zone = true)
    (hl : trig zone.id = true) :
    pollZones cfg alerts readPin tm (id :: rest) trig =
      ((pollZones cfg alerts readPin tm rest trig).1,
       Event.readZone zone.id zone.pin ::
         (pollZones cfg alerts readPin tm rest trig).2) := by
  simp [pollZones, hfz, hen, ha, hl]

theorem pollZones_cons_fresh (cfg : Config) (alerts : List AlertChannel)
    (readPin : Int → Bool) (tm : Nat) (id : Int) (rest : List Int)
    (trig : Int → Bool) (zone : Zone) (hfz : findZone cfg.zones id = some zone)
    (hen : zone.enabled = true) (ha : zoneTriggered readPin zone = true)
    (hl : trig zone.id = false) :
    pollZones cfg alerts readPin tm (id :: rest) trig =
      ((pollZones cfg alerts readPin tm rest
          (fun j => if j = zone.id then true else trig j)).1,
       Event.readZone zone.id zone.pin :: Event.latch zone.id ::
         Event.logTrigger zone.id zone.name ::
         ((if tm = 0 then dispatchAlerts alerts zone else []) ++
           (pollZones cfg alerts readPin tm rest
             (fun j => if j = zone.id then true else trig j)).2)) := by
  simp [pollZones, hfz, hen, ha, hl]

theorem pollZones_mono (cfg : Config) (alerts : List AlertChannel)
    (readPin : Int → Bool) (tm : Nat) (ids : List Int) (trig : Int → Bool)
    (j : Int) (h : trig j = true) :
    (pollZones cfg alerts readPin tm ids trig).1 j = true := by
  induction ids generalizing trig with
  | nil => simpa [pollZones] using h
  | cons id rest ih =>
    cases hfz : findZone cfg.zones id with
    | none => rw [pollZones_cons_none cfg alerts readPin tm id rest trig hfz]; exact ih trig h
    | some zone =>
      cases hen : zone.enabled with
      | false =>
        rw [pollZones_cons_disabled cfg alerts readPin tm id rest trig zone hfz hen]
        exact ih trig h
      | true =>
        cases ha : zoneTriggered readPin zone with
        | false =>
          rw [pollZones_cons_quiet cfg alerts readPin tm id rest trig zone hfz hen ha]
          exact ih trig h
        | true =>
          cases hl : trig zone.id with
          | true =>
            rw [pollZones_cons_already cfg alerts readPin tm id rest trig zone hfz hen ha hl]
            exact ih trig h
          | false =>
            rw [pollZones_cons_fresh cfg alerts readPin tm id rest trig zone hfz hen ha hl]
            apply ih
            by_cases hj : j = zone.id
            · simp [hj]
            · simp [hj, h]

theorem pollZones_frozen (cfg : Config) (alerts : List AlertChannel)
    (readPin : Int → Bool) (tm : Nat) (ids : List Int) (trig : Int → Bool)
    (id : Int) (h : trig id = true) :
    (∀ ch, Event.send ch id ∉ (pollZones cfg alerts readPin tm ids trig).2) ∧
    Event.latch id ∉ (pollZones cfg alerts readPin tm ids trig).2 := by
  induction ids generalizing trig with
  | nil =>
    exact ⟨fun ch => List.not_mem_nil _, List.not_mem_nil _⟩
  | cons id0 rest ih =>
    cases hfz : findZone cfg.zones id0 with
    | none =>
      rw [pollZones_cons_none cfg alerts readPin tm id0 rest trig hfz]
      exact ih trig h
    | some zone =>
      cases hen : zone.enabled with
      | false =>
        rw [pollZones_cons_disabled cfg alerts readPin tm id0 rest trig zone hfz hen]
        exact ih trig h
      | true =>
        cases ha : zoneTriggered readPin zone with
        | false =>
          rw [pollZones_cons_quiet cfg alerts readPin tm id0 rest trig zone hfz hen ha]
          obtain ⟨ihs, ihl⟩ := ih trig h
          refine ⟨fun ch hmem => ?_, fun hmem => ?_⟩
          · rcases List.mem_cons.mp hmem with hc | hc
            · cases hc
            · exact ihs ch hc
          · rcases List.mem_cons.mp hmem with hc | hc
            · cases hc
            · exact ihl hc
        | true =>
          cases hl : trig zone.id with
          | true =>
            rw [pollZones_cons_already cfg alerts readPin tm id0 rest trig zone hfz hen ha hl]
            obtain ⟨ihs, ihl⟩ := ih trig h
            refine ⟨fun ch hmem => ?_, fun hmem => ?_⟩
            · rcases List.mem_cons.mp hmem with hc | hc
              · cases hc
              · exact ihs ch hc
            · rcases List.mem_cons.mp hmem with hc | hc
              · cases hc
              · exact ihl hc
          | false =>
            have hne : zone.id ≠ id := by
              intro hc
              rw [hc, h] at hl
              cases hl
            rw [pollZones_cons_fresh cfg alerts readPin tm id0 rest trig zone hfz hen ha hl]
            have hid2 : ¬ id = zone.id := fun hc => hne hc.symm
            have htrig2 : (fun j => if j = zone.id then true else trig j) id = true := by
              simp [hid2, h]
            obtain ⟨ihs, ihl⟩ :=
              ih (fun j => if j = zone.id then true else trig j) htrig2
            refine ⟨fun ch hmem => ?_, fun hmem => ?_⟩
            · simp only [List.mem_cons, List.mem_append] at hmem
              rcases hmem with hc | hc | hc | (hc | hc)
              · cases hc
              · cases hc
              · cases hc
              · by_cases htm : tm = 0
                · rw [if_pos htm] at hc
                  rcases dispatchAlerts_shape alerts zone _ hc with ⟨ch2, hch⟩ | ⟨ch2, err, hch⟩
                  · cases hch
                    exact hne rfl
                  · cases hch
                · rw [if_neg htm] at hc
                  cases hc
              · exact ihs ch hc
            · simp only [List.mem_cons, List.mem_append] at hmem
              rcases hmem with hc | hc | hc | (hc | hc)
              · cases hc
              · cases hc
                exact hne rfl
              · cases hc
              · by_cases htm : tm = 0
                · rw [if_pos htm] at hc
                  rcases dispatchAlerts_shape alerts zone _ hc with ⟨ch2, hch⟩ | ⟨ch2, err, hch⟩
                  · cases hch
                  · cases hch
                · rw [if_neg htm] at hc
                  cases hc
              · exact ihl hc

theorem pollZones_skip (cfg : Config) (alerts : List AlertChannel)
    (readPin : Int → Bool) (tm : Nat) (ids : List Int) (trig : Int → Bool)
    (id : Int)
    (h : findZone cfg.zones id = none ∨
      ∃ z, findZone cfg.zones id = some z ∧ z.enabled = false) :
    (pollZones cfg alerts readPin tm ids trig).1 id = trig id ∧
    Event.latch id ∉ (pollZones cfg alerts readPin tm ids trig).2 ∧
    (∀ pin, Event.readZone id pin ∉ (pollZones cfg alerts readPin tm ids trig).2) ∧
    (∀ ch, Event.send ch id ∉ (pollZones cfg alerts readPin tm ids trig).2) := by
  induction ids generalizing trig with
  | nil =>
    exact ⟨rfl, List.not_mem_nil _, fun pin => List.not_mem_nil _,
      fun ch => List.not_mem_nil _⟩
  | cons id0 rest ih =>
    by_cases hid : id0 = id
    · subst hid
      rcases h with hnone | ⟨z, hz, hzen⟩
      · rw [pollZones_cons_none cfg alerts readPin tm id0 rest trig hnone]
        exact ih trig
      · rw [pollZones_cons_disabled cfg alerts readPin tm id0 rest trig z hz hzen]
        exact ih trig
    · cases hfz : findZone cfg.zones id0 with
      | none =>
        rw [pollZones_cons_none cfg alerts readPin tm id0 rest trig hfz]
        exact ih trig
      | some zone =>
        have hzid : zone.id = id0 := findZone_id cfg.zones id0 zone hfz
        have hzne : zone.id ≠ id := by rw [hzid]; exact hid
        cases hen : zone.enabled with
        | false =>
          rw [pollZones_cons_disabled cfg alerts readPin tm id0 rest trig zone hfz hen]
          exact ih trig
        | true =>
          cases ha : zoneTriggered readPin zone with
          | false =>
            rw [pollZones_cons_quiet cfg alerts readPin tm id0 rest trig zone hfz hen ha]
            obtain ⟨ih1, ih2, ih3, ih4⟩ := ih trig
            refine ⟨ih1, fun hmem => ?_, fun pin hmem => ?_, fun ch hmem => ?_⟩
            · rcases List.mem_cons.mp hmem with hc | hc
              · cases hc
              · exact ih2 hc
            · rcases List.mem_cons.mp hmem with hc | hc
              · cases hc
                exact hzne rfl
              · exact ih3 pin hc
            · rcases List.mem_cons.mp hmem with hc | hc
              · cases hc
              · exact ih4 ch hc
          | true =>
            cases hl : trig zone.id with
            | true =>
              rw [pollZones_cons_already cfg alerts readPin tm id0 rest trig zone hfz hen ha hl]
              obtain ⟨ih1, ih2, ih3, ih4⟩ := ih trig
              refine ⟨ih1, fun hmem => ?_, fun pin hmem => ?_, fun ch hmem => ?_⟩
              · rcases List.mem_cons.mp hmem with hc | hc
                · cases hc
                · exact ih2 hc
              · rcases List.mem_cons.mp hmem with hc | hc
                · cases hc
                  exact hzne rfl
                · exact ih3 pin hc
              · rcases List.mem_cons.mp hmem with hc | hc
                · cases hc
                · exact ih4 ch hc
            | false =>
              rw [pollZones_cons_fresh cfg alerts readPin tm id0 rest trig zone hfz hen ha hl]
              obtain ⟨ih1, ih2, ih3, ih4⟩ :=
                ih (fun j => if j = zone.id then true else trig j)
              have htrig2 : (fun j => if j = zone.id then true else trig j) id = trig id := by
                have hid2 : ¬ id = zone.id := fun hc => hzne hc.symm
                simp [hid2]
              have hid2 : ¬ id = zone.id := fun hc => hzne hc.symm
              refine ⟨by rw [ih1]; simp [hid2], fun hmem => ?_, fun pin hmem => ?_,
                fun ch hmem => ?_⟩
              · simp only [List.mem_cons, List.mem_append] at hmem
                rcases hmem with hc | hc | hc | (hc | hc)
                · cases hc
                · cases hc
                  exact hzne rfl
                · cases hc
                · by_cases htm : tm = 0
                  · rw [if_pos htm] at hc
                    rcases dispatchAlerts_shape alerts zone _ hc with ⟨ch2, hch⟩ | ⟨ch2, err, hch⟩ <;> cases hch
                  · rw [if_neg htm] at hc
                    cases hc
                · exact ih2 hc
              · simp only [List.mem_cons, List.mem_append] at hmem
                rcases hmem with hc | hc | hc | (hc | hc)
                · cases hc
                  exact hzne rfl
                · cases hc
                · cases hc
                · by_cases htm : tm = 0
                  · rw [if_pos htm] at hc
                    rcases dispatchAlerts_shape alerts zone _ hc with ⟨ch2, hch⟩ | ⟨ch2, err, hch⟩ <;> cases hch
                  · rw [if_neg htm] at hc
                    cases hc
                · exact ih3 pin hc
              · simp only [List.mem_cons, List.mem_append] at hmem
                rcases hmem with hc | hc | hc | (hc | hc)
                · cases hc
                · cases hc
                · cases hc
                · by_cases htm : tm = 0
                  · rw [if_pos htm] at hc
                    rcases dispatchAlerts_shape alerts zone _ hc with ⟨ch2, hch⟩ | ⟨ch2, err, hch⟩
                    · cases hch
                      exact hzne rfl
                    · cases hch
                  · rw [if_neg htm] at hc
                    cases hc
                · exact ih4 ch hc

theorem pollZones_latches (cfg : Config) (alerts : List AlertChannel)
    (readPin : Int → Bool) (tm : Nat) (ids : List Int) (trig : Int → Bool)
    (id : Int) (z : Zone) (hmem : id ∈ ids)
    (hz : findZone cfg.zones id = some z) (hen : z.enabled = true)
    (ha : zoneTriggered readPin z = true) (hl : trig id = false) :
    (pollZones cfg alerts readPin tm ids trig).1 id = true ∧
    Event.latch id ∈ (pollZones cfg alerts readPin tm ids trig).2 ∧
    Event.logTrigger id z.name ∈ (pollZones cfg alerts readPin tm ids trig).2 ∧
    (tm = 0 → ∀ ch ∈ alerts,
      Event.send ch.name id ∈ (pollZones cfg alerts readPin tm ids trig).2) := by
  induction ids generalizing trig with
  | nil => cases hmem
  | cons id0 rest ih =>
    have hzid : z.id = id := findZone_id cfg.zones id z hz
    by_cases hid : id0 = id
    · subst hid
      have hlz : trig z.id = false := by rw [hzid]; exact hl
      rw [pollZones_cons_fresh cfg alerts readPin tm id0 rest trig z hz hen ha hlz]
      have htrig2 : (fun j => if j = z.id then true else trig j) id0 = true := by
        simp [hzid]
      refine ⟨pollZones_mono cfg alerts readPin tm rest _ id0 htrig2, ?_, ?_, ?_⟩
      · simp [hzid]
      · simp [hzid]
      · intro htm ch hch
        rw [if_pos htm]
        have := dispatchAlerts_send_mem alerts z ch hch
        rw [hzid] at this
        simp only [List.mem_cons, List.mem_append]
        exact Or.inr (Or.inr (Or.inr (Or.inl this)))
    · have hmem2 : id ∈ rest := by
        rcases List.mem_cons.mp hmem with hc | hc
        · exact absurd hc.symm hid
        · exact hc
      cases hfz : findZone cfg.zones id0 with
      | none =>
        rw [pollZones_cons_none cfg alerts readPin tm id0 rest trig hfz]
        exact ih trig hmem2 hl
      | some zone =>
        have hzid0 : zone.id = id0 := findZone_id cfg.zones id0 zone hfz
        cases hen0 : zone.enabled with
        | false =>
          rw [pollZones_cons_disabled cfg alerts readPin tm id0 rest trig zone hfz hen0]
          exact ih trig hmem2 hl
        | true =>
          cases ha0 : zoneTriggered readPin zone with
          | false =>
            rw [pollZones_cons_quiet cfg alerts readPin tm id0 rest trig zone hfz hen0 ha0]
            obtain ⟨ih1, ih2, ih3, ih4⟩ := ih trig hmem2 hl
            exact ⟨ih1, List.mem_cons_of_mem _ ih2, List.mem_cons_of_mem _ ih3,
              fun htm ch hch => List.mem_cons_of_mem _ (ih4 htm ch hch)⟩
          | true =>
            cases hl0 : trig zone.id with
            | true =>
              rw [pollZones_cons_already cfg alerts readPin tm id0 rest trig zone hfz hen0 ha0 hl0]
              obtain ⟨ih1, ih2, ih3, ih4⟩ := ih trig hmem2 hl
              exact ⟨ih1, List.mem_cons_of_mem _ ih2, List.mem_cons_of_mem _ ih3,
                fun htm ch hch => List.mem_cons_of_mem _ (ih4 htm ch hch)⟩
            | false =>
              rw [pollZones_cons_fresh cfg alerts readPin tm id0 rest trig zone hfz hen0 ha0 hl0]
              have hl2 : (fun j => if j = zone.id then true else trig j) id = false := by
                have hid2 : ¬ id = zone.id := by
                  rw [hzid0]
                  exact fun hc => hid hc.symm
                simp [hid2, hl]
              obtain ⟨ih1, ih2, ih3, ih4⟩ :=
                ih (fun j => if j = zone.id then true else trig j) hmem2 hl2
              refine ⟨ih1, ?_, ?_, ?_⟩
              · simp only [List.mem_cons, List.mem_append]
                exact Or.inr (Or.inr (Or.inr (Or.inr ih2)))
              · simp only [List.mem_cons, List.mem_append]
                exact Or.inr (Or.inr (Or.inr (Or.inr ih3)))
              · intro htm ch hch
                simp only [List.mem_cons, List.mem_append]
                exact Or.inr (Or.inr (Or.inr (Or.inr (ih4 htm ch hch))))

theorem pollZones_no_send (cfg : Config) (alerts : List AlertChannel)
    (readPin : Int → Bool) (tm : Nat) (ids : List Int) (trig : Int → Bool)
    (htm : tm ≠ 0) (ch : String) (i : Int) :
    Event.send ch i ∉ (pollZones cfg alerts readPin tm ids trig).2 := by
  induction ids generalizing trig with
  | nil => exact List.not_mem_nil _
  | cons id0 rest ih =>
    cases hfz : findZone cfg.zones id0 with
    | none =>
      rw [pollZones_cons_none cfg alerts readPin tm id0 rest trig hfz]
      exact ih trig
    | some zone =>
      cases hen : zone.enabled with
      | false =>
        rw [pollZones_cons_disabled cfg alerts readPin tm id0 rest trig zone hfz hen]
        exact ih trig
      | true =>
        cases ha : zoneTriggered readPin zone with
        | false =>
          rw [pollZones_cons_quiet cfg alerts readPin tm id0 rest trig zone hfz hen ha]
          intro hmem
          rcases List.mem_cons.mp hmem with hc | hc
          · cases hc
          · exact ih trig hc
        | true =>
          cases hl : trig zone.id with
          | true =>
            rw [pollZones_cons_already cfg alerts readPin tm id0 rest trig zone hfz hen ha hl]
            intro hmem
            rcases List.mem_cons.mp hmem with hc | hc
            · cases hc
            · exact ih trig hc
          | false =>
            rw [pollZones_cons_fresh cfg alerts readPin tm id0 rest trig zone hfz hen ha hl]
            intro hmem
            simp only [List.mem_cons, List.mem_append] at hmem
            rcases hmem with hc | hc | hc | (hc | hc)
            · cases hc
            · cases hc
            · cases hc
            · rw [if_neg htm] at hc
              cases hc
            · exact ih (fun j => if j = zone.id then true else trig j) hc

theorem pollTick_skip (cfg : Config) (alerts : List AlertChannel)
    (readPin : Int → Bool) (s : ServerState)
    (h : s.currentMode = "Disarmed" ∨ s.testMode = 1) :
    pollTick cfg alerts readPin s = (s, []) := by
  simp [pollTick, h]

theorem pollTick_active (cfg : Config) (alerts : List AlertChannel)
    (readPin : Int → Bool) (s : ServerState)
    (h : ¬(s.currentMode = "Disarmed" ∨ s.testMode = 1)) :
    pollTick cfg alerts readPin s =
      ({ s with triggered :=
          (pollZones cfg alerts readPin s.testMode (activeZoneIDs cfg s) s.triggered).1 },
       (pollZones cfg alerts readPin s.testMode (activeZoneIDs cfg s) s.triggered).2) := by
  simp [pollTick, h]

/-! ### Claim C1: edge-triggered latching across step sequences -/

theorem runOp_frozen (cfg : Config) (alerts : List AlertChannel)
    (s : ServerState) (op : Op) (id : Int) (h : s.triggered id = true) :
    (runOp cfg alerts s op).1.triggered id = true ∧
    (∀ ch, Event.send ch id ∉ (runOp cfg alerts s op).2) ∧
    Event.latch id ∉ (runOp cfg alerts s op).2 := by
  cases op with
  | tick readPin =>
    simp only [runOp]
    by_cases hskip : s.currentMode = "Disarmed" ∨ s.testMode = 1
    · rw [pollTick_skip cfg alerts readPin s hskip]
      exact ⟨h, fun ch => List.not_mem_nil _, List.not_mem_nil _⟩
    · rw [pollTick_active cfg alerts readPin s hskip]
      obtain ⟨hf1, hf2⟩ :=
        pollZones_frozen cfg alerts readPin s.testMode (activeZoneIDs cfg s)
          s.triggered id h
      exact ⟨pollZones_mono cfg alerts readPin s.testMode (activeZoneIDs cfg s)
        s.triggered id h, hf1, hf2⟩
  | trigger zoneID user =>
    simp only [runOp]
    by_cases ht : s.testMode = 1
    · cases hfz : findZone cfg.zones zoneID with
      | none => simp [handleTestTrigger, ht, hfz, h]
      | some zone =>
        cases hal : s.triggered zone.id with
        | true => simp [handleTestTrigger, ht, hfz, hal, h]
        | false =>
          have hne : zone.id ≠ id := by
            intro hc
            rw [hc, h] at hal
            cases hal
          simp only [handleTestTrigger, ht, hfz, hal]
          have hidne : ¬ id = zone.id := fun hc => hne hc.symm
          refine ⟨by simp [hidne, h], fun ch hmem => ?_, fun hmem => ?_⟩
          · rcases List.mem_cons.mp hmem with hc | hmem2
            · cases hc
            · rcases List.mem_cons.mp hmem2 with hc | hc
              · cases hc
              · rcases dispatchAlerts_shape alerts zone _ hc with ⟨ch2, hch⟩ | ⟨ch2, err, hch⟩
                · cases hch
                  exact hne rfl
                · cases hch
          · rcases List.mem_cons.mp hmem with hc | hmem2
            · cases hc
              exact hne rfl
            · rcases List.mem_cons.mp hmem2 with hc | hc
              · cases hc
              · rcases dispatchAlerts_shape alerts zone _ hc with ⟨ch2, hch⟩ | ⟨ch2, err, hch⟩ <;> cases hch
    · have ht2 : s.testMode ≠ 1 := ht
      simp [handleTestTrigger, ht2, h]

/-- Claim C1: for every zone and every sequence of poll ticks and manual
triggers with no intervening arm/disarm transition, once the zone latch is
set no further alert dispatch occurs for that zone and its latch is not set
again, however the raw sensor levels oscillate and however often the manual
trigger is repeated. -/
theorem C1_latch_once (cfg : Config) (alerts : List AlertChannel)
    (ops : List Op) (s : ServerState) (id : Int) (h : s.triggered id = true) :
    (runOps cfg alerts ops s).1.triggered id = true ∧
    (∀ ch, Event.send ch id ∉ (runOps cfg alerts ops s).2) ∧
    Event.latch id ∉ (runOps cfg alerts ops s).2 := by
  induction ops generalizing s with
  | nil => exact ⟨h, fun ch => List.not_mem_nil _, List.not_mem_nil _⟩
  | cons op rest ih =>
    simp only [runOps]
    obtain ⟨h1, h2, h3⟩ := runOp_frozen cfg alerts s op id h
    obtain ⟨h4, h5, h6⟩ := ih (runOp cfg alerts s op).1 h1
    refine ⟨h4, fun ch hmem => ?_, fun hmem => ?_⟩
    · rcases List.mem_append.mp hmem with hm | hm
      · exact h2 ch hm
      · exact h5 ch hm
    · rcases List.mem_append.mp hmem with hm | hm
      · exact h3 hm
      · exact h6 hm

/-- A normally-closed zone with ID 1 on pin 17. -/
def zoneNC : Zone := ⟨1, "Front Door", "contact", 17, true, "NC"⟩

/-- A configuration with that zone and an Away profile listing it. -/
def cfgC1 : Config := ⟨[zoneNC], [⟨"Away", some [1]⟩], []⟩

/-- Two poll ticks with oscillating levels followed by a repeated manual
trigger. -/
def opsC1 : List Op :=
  [Op.tick (fun _ => false), Op.tick (fun _ => true), Op.trigger 1 "u"]

/-- Witness for C1: with the latch of zone 1 already set, the sequence
leaves it set. -/
theorem C1_latch_once_witness :
    (runOps cfgC1 [LogAlert] opsC1 stateLatched).1.triggered 1 = true :=
  (C1_latch_once cfgC1 [LogAlert] opsC1 stateLatched 1 (by decide)).1

/-! ### Claim C2: the per-tick contract of the polling loop -/

/-- Claim C2: on every poll tick, in Disarmed or TestSoft no sensor is read
and nothing is latched; otherwise the active zone set is every configured
zone in TestWiring and exactly the IDs listed by the current profile in
Armed; IDs absent from configuration and disabled zones are skipped; each
remaining zone whose interpreter reports activation and whose latch is unset
is latched and alert dispatch runs, except that in TestWiring no alert
channel send is invoked and only a log record is produced. -/
theorem C2_poll_tick (cfg : Config) (alerts : List AlertChannel)
    (readPin : Int → Bool) (s : ServerState) (hwf : WF s) :
    ((s.opState = OpState.disarmed ∨ s.opState = OpState.testSoft) →
      pollTick cfg alerts readPin s = (s, [])) ∧
    (s.opState = OpState.testWiring →
      activeZoneIDs cfg s = cfg.zones.map Zone.id) ∧
    (∀ p am l, s.opState = OpState.armed p →
      cfg.armModes.find? (fun am2 => equalFold am2.name p) = some am →
      am.activeZones = some l → activeZoneIDs cfg s = l) ∧
    (∀ id, (findZone cfg.zones id = none ∨
        ∃ z, findZone cfg.zones id = some z ∧ z.enabled = false) →
      (pollTick cfg alerts readPin s).1.triggered id = s.triggered id ∧
      Event.latch id ∉ (pollTick cfg alerts readPin s).2 ∧
      (∀ pin, Event.readZone id pin ∉ (pollTick cfg alerts readPin s).2)) ∧
    (s.opState = OpState.testWiring →
      ∀ ch i, Event.send ch i ∉ (pollTick cfg alerts readPin s).2) ∧
    (∀ id z, (s.opState = OpState.testWiring ∨ (∃ p, s.opState = OpState.armed p)) →
      id ∈ activeZoneIDs cfg s → findZone cfg.zones id = some z →
      z.enabled = true → zoneTriggered readPin z = true → s.triggered id = false →
      (pollTick cfg alerts readPin s).1.triggered id = true ∧
      Event.latch id ∈ (pollTick cfg alerts readPin s).2 ∧
      Event.logTrigger id z.name ∈ (pollTick cfg alerts readPin s).2 ∧
      ((∃ p, s.opState = OpState.armed p) →
        ∀ ch ∈ alerts, Event.send ch.name id ∈ (pollTick cfg alerts readPin s).2)) := by
  obtain ⟨hwf0, hwf1, hwf2⟩ := hwf
  have hactive_wiring : s.opState = OpState.testWiring →
      ¬(s.currentMode = "Disarmed" ∨ s.testMode = 1) := by
    intro hop hc
    obtain ⟨ht2, ht1⟩ := opState_testWiring_dest s hop
    rcases hc with hc | hc
    · rw [hwf2 ht2] at hc
      exact absurd hc (by decide)
    · exact ht1 hc
  have hactive_armed : ∀ p, s.opState = OpState.armed p →
      ¬(s.currentMode = "Disarmed" ∨ s.testMode = 1) := by
    intro p hop hc
    obtain ⟨ht1, ht2, hcm, hnd⟩ := opState_armed_dest s p hop
    rcases hc with hc | hc
    · exact hnd hc
    · exact ht1 hc
  refine ⟨?_, ?_, ?_, ?_, ?_, ?_⟩
  · intro hop
    rcases hop with hop | hop
    · exact pollTick_skip cfg alerts readPin s (Or.inl (opState_disarmed_mode s hop))
    · exact pollTick_skip cfg alerts readPin s (Or.inr ((opState_testSoft_iff s).mp hop))
  · intro hop
    obtain ⟨ht2, _⟩ := opState_testWiring_dest s hop
    simp [activeZoneIDs, ht2]
  · intro p am l hop hfind hzl
    obtain ⟨ht1, ht2, hcm, hnd⟩ := opState_armed_dest s p hop
    simp [activeZoneIDs, ht2, hcm, findActiveZones_eq_find, hfind, hzl]
  · intro id hsk
    by_cases hskip : s.currentMode = "Disarmed" ∨ s.testMode = 1
    · rw [pollTick_skip cfg alerts readPin s hskip]
      exact ⟨rfl, List.not_mem_nil _, fun pin => List.not_mem_nil _⟩
    · rw [pollTick_active cfg alerts readPin s hskip]
      obtain ⟨h1, h2, h3, h4⟩ :=
        pollZones_skip cfg alerts readPin s.testMode (activeZoneIDs cfg s)
          s.triggered id hsk
      exact ⟨h1, h2, h3⟩
  · intro hop ch i
    obtain ⟨ht2, _⟩ := opState_testWiring_dest s hop
    rw [pollTick_active cfg alerts readPin s (hactive_wiring hop)]
    have htm : s.testMode ≠ 0 := by rw [ht2]; decide
    exact pollZones_no_send cfg alerts readPin s.testMode (activeZoneIDs cfg s)
      s.triggered htm ch i
  · intro id z hop hmem hfz hen ha hl
    have hactive : ¬(s.currentMode = "Disarmed" ∨ s.testMode = 1) := by
      rcases hop with hop | ⟨p, hop⟩
      · exact hactive_wiring hop
      · exact hactive_armed p hop
    rw [pollTick_active cfg alerts readPin s hactive]
    obtain ⟨h1, h2, h3, h4⟩ :=
      pollZones_latches cfg alerts readPin s.testMode (activeZoneIDs cfg s)
        s.triggered id z hmem hfz hen ha hl
    refine ⟨h1, h2, h3, ?_⟩
    intro hparm ch hch
    obtain ⟨p, hoparm⟩ := hparm
    obtain ⟨ht1, ht2, hcm, hnd⟩ := opState_armed_dest s p hoparm
    have htm0 : s.testMode = 0 := by
      rcases hwf0 with h0 | h0 | h0
      · exact h0
      · exact absurd h0 ht1
      · exact absurd h0 ht2
    exact h4 htm0 ch hch

/-- Witness for C2: a disarmed tick does nothing. -/
theorem C2_poll_tick_witness :
    pollTick cfgC1 [LogAlert] (fun _ => false) initialState = (initialState, []) :=
  (C2_poll_tick cfgC1 [LogAlert] (fun _ => false) initialState
    (by unfold WF; exact ⟨Or.inl rfl, fun h => absurd h (by decide),
      fun h => absurd h (by decide)⟩)).1 (Or.inl (by decide))

/-! ### Claim C10: disabled zones and the polling loop -/

/-- A disabled zone with ID 9. -/
def zoneDisabled : Zone := ⟨9, "Cellar", "contact", 5, false, "NO"⟩

/-- A configuration holding only that disabled zone. -/
def cfgDisabled : Config := ⟨[zoneDisabled], [], []⟩

/-- Counterexample to claim C10 as stated: in TestSoft a manual trigger of
the disabled zone 9 sets its latch, because handleTestTrigger looks the zone
up by ID without consulting the Enabled flag. -/
theorem C10_counterexample :
    zoneDisabled.enabled = false ∧
    (handleTestTrigger cfgDisabled [LogAlert] stateTestSoft 9 "u").2.1.triggered 9 =
      true := by
  decide

/-- Claim C10 (amended): a zone whose Enabled flag is false is never read
nor latched by the sensor-polling loop: across every sequence of poll ticks
its latch value is unchanged and no sensor-read, latch or alert-send event
is produced for it.  (A manual test trigger in TestSoft, which does not
consult the Enabled flag, can still latch it.) -/
theorem C10_amended_poll (cfg : Config) (alerts : List AlertChannel)
    (ops : List Op) (s : ServerState) (id : Int) (z : Zone)
    (hz : findZone cfg.zones id = some z) (hd : z.enabled = false)
    (hops : ∀ op ∈ ops, ∃ rp, op = Op.tick rp) :
    (runOps cfg alerts ops s).1.triggered id = s.triggered id ∧
    Event.latch id ∉ (runOps cfg alerts ops s).2 ∧
    (∀ pin, Event.readZone id pin ∉ (runOps cfg alerts ops s).2) ∧
    (∀ ch, Event.send ch id ∉ (runOps cfg alerts ops s).2) := by
  revert hops
  induction ops generalizing s with
  | nil =>
    intro _
    exact ⟨rfl, List.not_mem_nil _, fun pin => List.not_mem_nil _,
      fun ch => List.not_mem_nil _⟩
  | cons op rest ih =>
    intro hops
    obtain ⟨rp, rfl⟩ := hops op (List.mem_cons_self op rest)
    have hops2 : ∀ op ∈ rest, ∃ rp, op = Op.tick rp :=
      fun o ho => hops o (List.mem_cons_of_mem _ ho)
    simp only [runOps, runOp]
    by_cases hskip : s.currentMode = "Disarmed" ∨ s.testMode = 1
    · rw [pollTick_skip cfg alerts rp s hskip]
      obtain ⟨h1, h2, h3, h4⟩ := ih s hops2
      exact ⟨h1, by simpa using h2, fun pin => by simpa using h3 pin,
        fun ch => by simpa using h4 ch⟩
    · rw [pollTick_active cfg alerts rp s hskip]
      obtain ⟨t1, t2, t3, t4⟩ :=
        pollZones_skip cfg alerts rp s.testMode (activeZoneIDs cfg s)
          s.triggered id (Or.inr ⟨z, hz, hd⟩)
      obtain ⟨h1, h2, h3, h4⟩ := ih _ hops2
      refine ⟨by rw [h1]; exact t1, fun hmem => ?_, fun pin hmem => ?_,
        fun ch hmem => ?_⟩
      · rcases List.mem_append.mp hmem with hm | hm
        · exact t2 hm
        · exact h2 hm
      · rcases List.mem_append.mp hmem with hm | hm
        · exact t3 pin hm
        · exact h3 pin hm
      · rcases List.mem_append.mp hmem with hm | hm
        · exact t4 ch hm
        · exact h4 ch hm

/-- The TestWiring state with no latches set. -/
def stateWiring : ServerState := ⟨"TestWiring", 2, fun _ => false⟩

/-- Witness for the amended C10: one TestWiring tick with all pins high
leaves the disabled zone untouched. -/
theorem C10_amended_poll_witness :
    (runOps cfgDisabled [LogAlert] [Op.tick (fun _ => true)] stateWiring).1.triggered 9 =
      stateWiring.triggered 9 :=
  (C10_amended_poll cfgDisabled [LogAlert] [Op.tick (fun _ => true)] stateWiring 9
    zoneDisabled (by decide) (by decide)
    (fun op ho => ⟨fun _ => true, List.mem_singleton.mp ho⟩)).1

/-! ### Well-formedness is preserved by the entry points -/

theorem WF_initialState : WF initialState :=
  ⟨Or.inl rfl, fun h => absurd h (by decide), fun h => absurd h (by decide)⟩

theorem WF_handleArm (cfg : Config) (s : ServerState) (mode user : String)
    (hwf : WF s) : WF (handleArm cfg s mode user).2.1 := by
  simp only [handleArm]
  split_ifs with h1 h2
  · exact ⟨Or.inr (Or.inl rfl), fun _ => rfl, fun h => by simp at h⟩
  · exact ⟨Or.inr (Or.inr rfl), fun h => by simp at h, fun _ => rfl⟩
  · cases hfz : findActiveZones cfg.armModes (trimStr mode) with
    | none => exact hwf
    | some l =>
      exact ⟨Or.inl rfl, fun h => by simp at h, fun h => by simp at h⟩

theorem WF_handleDisarm (s : ServerState) (user : String) :
    WF (handleDisarm s user).1 :=
  ⟨Or.inl rfl, fun h => by simp [handleDisarm] at h, fun h => by simp [handleDisarm] at h⟩

theorem WF_runOp (cfg : Config) (alerts : List AlertChannel) (s : ServerState)
    (op : Op) (hwf : WF s) : WF (runOp cfg alerts s op).1 := by
  cases op with
  | tick readPin =>
    simp only [runOp]
    by_cases hskip : s.currentMode = "Disarmed" ∨ s.testMode = 1
    · rw [pollTick_skip cfg alerts readPin s hskip]
      exact hwf
    · rw [pollTick_active cfg alerts readPin s hskip]
      exact hwf
  | trigger zoneID user =>
    simp only [runOp]
    by_cases ht : s.testMode = 1
    · cases hfz : findZone cfg.zones zoneID with
      | none =>
        simp only [handleTestTrigger, ht, hfz]
        exact hwf
      | some zone =>
        cases hal : s.triggered zone.id with
        | true =>
          simp only [handleTestTrigger, ht, hfz, hal]
          exact hwf
        | false =>
          simp only [handleTestTrigger, ht, hfz, hal]
          exact ⟨Or.inr (Or.inl rfl), fun _ => hwf.2.1 ht, fun h => by simp at h⟩
    · have ht2 : s.testMode ≠ 1 := ht
      simp [handleTestTrigger, ht2]
      exact hwf

/-! ### Claim C9: transition atomicity versus concurrent status reads -/

/-- One shared-memory micro-step of the disarm handler (handleDisarm): it
writes currentMode, then testMode, then - only this last step under the
trigger mutex - replaces the latch map.  No lock spans all three writes. -/
inductive DisarmStep where
  | writeMode : DisarmStep
  | writeTest : DisarmStep
  | clearTriggered : DisarmStep
deriving DecidableEq, Repr

/-- One micro-step of the status handler (handleStatus): it first reads the
latch map (without taking the trigger mutex), then reads currentMode while
building the response. -/
inductive StatusStep where
  | readTriggered : StatusStep
  | readMode : StatusStep
deriving DecidableEq, Repr

/-- What the status handler has observed so far. -/
structure StatusObs where
  obsTriggered : Int → Bool
  obsMode : String

/-- The program order of handleDisarm. -/
def disarmProg : List DisarmStep :=
  [DisarmStep.writeMode, DisarmStep.writeTest, DisarmStep.clearTriggered]

/-- The program order of handleStatus. -/
def statusProg : List StatusStep :=
  [StatusStep.readTriggered, StatusStep.readMode]

/-- Effect of one disarm micro-step on the shared state. -/
def execDisarmStep (sh : ServerState) : DisarmStep → ServerState
  | DisarmStep.writeMode => { sh with currentMode := "Disarmed" }
  | DisarmStep.writeTest => { sh with testMode := 0 }
  | DisarmStep.clearTriggered => { sh with triggered := fun _ => false }

/-- Effect of one status micro-step on the observation. -/
def execStatusStep (sh : ServerState) (obs : StatusObs) : StatusStep → StatusObs
  | StatusStep.readTriggered => { obs with obsTriggered := sh.triggered }
  | StatusStep.readMode => { obs with obsMode := sh.currentMode }

/-- Run an interleaving of the two handlers over the shared state: `true`
schedules the next disarm micro-step, `false` the next status micro-step. -/
def runInterleaved : List Bool → ServerState → List DisarmStep → List StatusStep →
    StatusObs → ServerState × StatusObs
  | [], sh, _, _, obs => (sh, obs)
  | true :: sched, sh, d :: ds, ss, obs =>
    runInterleaved sched (execDisarmStep sh d) ds ss obs
  | true :: sched, sh, [], ss, obs => runInterleaved sched sh [] ss obs
  | false :: sched, sh, ds, st :: ss, obs =>
    runInterleaved sched sh ds ss (execStatusStep sh obs st)
  | false :: sched, sh, ds, [], obs => runInterleaved sched sh ds [] obs

/-- The pre-transition state: armed in Away with zone 1 latched. -/
def preDisarm : ServerState := ⟨"Away", 0, fun j => j == 1⟩

/-- The empty observation the status handler starts from. -/
def obsStart : StatusObs := ⟨fun _ => false, ""⟩

/-- Claim C9 fails on the code: with zone 1 latched in Armed "Away",
schedule the disarm mode write first, then both status reads, then the
remaining disarm steps.  The snapshot observes the post-transition mode
"Disarmed" together with the pre-transition latch set (zone 1 still
latched), while the final state has the latch cleared - a mix of pre- and
post-transition data that the claim rules out. -/
theorem C9_snapshot_race :
    ((runInterleaved [true, false, false, true, true] preDisarm disarmProg
        statusProg obsStart).2.obsMode = "Disarmed" ∧
      (runInterleaved [true, false, false, true, true] preDisarm disarmProg
        statusProg obsStart).2.obsTriggered 1 = true) ∧
    (runInterleaved [true, false, false, true, true] preDisarm disarmProg
        statusProg obsStart).1.triggered 1 = false ∧
    preDisarm.currentMode = "Away" ∧ preDisarm.triggered 1 = true :=
  ⟨⟨rfl, rfl⟩, rfl, rfl, rfl⟩

end Minder
